import Mathlib

/-!
Verification of the camtrack streaming pipeline.

Shallow embedding of the repository's streaming transport and client-side
buffering state machine:

* the client ingest buffer of `useVideoStream` (queue admission, the
  single-writer commit loop `processBuffer` / `processNextChunk`, and its
  error budget);
* the stream multiplexer's backpressure policy (`onData` in the server);
* the ffmpeg filter-graph construction (`xstackFilter`);
* the proxy server's connection-time cardinality check;
* the per-connection session state machine of the main server
  (`startTranscoder`, the `ws.on("message")` handler, the 100 ms
  auto-start timer, and the rotating sequential transcoder).

Machine integers are modelled as `Nat` (none of the verified code paths
overflow or rely on width); binary fragments are modelled as `List Nat`
(byte sequences, only their identity and `byteLength` matter).
-/

namespace CamTrack

open scoped List

/-- Binary media fragment: an opaque byte sequence (`Uint8Array` on the
client, a stdout chunk on the server). Only identity and byte length are
relevant to the verified logic. -/
abbrev Frag := List Nat

/-! ## Client ingest buffer (useVideoStream, src/unnamed/part_002)

State of the hook's mutable refs that the commit loop touches:
`bufferQueue`, `processingQueue`, `chunkErrorCount`; plus two ghost
histories used only for stating properties: `arrived` (every fragment
delivered to `handleWebSocketMessage`) and `attempts` (every fragment
passed to `sourceBuffer.appendBuffer`, in call order). -/

/-- Default of `config.detection.maxChunkErrors` (src config, part_008). -/
def maxChunkErrors : Nat := 50

/-- Queue-depth trigger in `handleWebSocketMessage`: `bufferQueue.current.length > 10`. -/
def queueDepthTrigger : Nat := 10

/-- Number of entries removed by `bufferQueue.current.splice(0, 5)`. -/
def spliceDropCount : Nat := 5

/-- Delay (ms) of the retry scheduled in the catch branch:
`setTimeout(processNextChunk, 50)`. -/
def chunkRetryDelayMs : Nat := 50

/-- Dwell (ms) before the busy branch re-enables the loop:
`setTimeout(() => { processingQueue.current = false; processBuffer(); }, 20)`. -/
def busyRetryDelayMs : Nat := 20

structure BufState where
  /-- Mirrors `bufferQueue.current`. -/
  queue : List Frag
  /-- Mirrors `processingQueue.current`. -/
  processing : Bool
  /-- Mirrors `chunkErrorCount.current`. -/
  errCount : Nat
  /-- ghost: all fragments delivered to the buffer, in arrival order -/
  arrived : List Frag
  /-- ghost: all fragments passed to `appendBuffer`, in call order -/
  attempts : List Frag
  deriving Repr, DecidableEq

/-- Initial state of the hook's refs. -/
def initBuf : BufState := { queue := [], processing := false, errCount := 0, arrived := [], attempts := [] }

/-- Queue admission in `handleWebSocketMessage` (binary branch): when the
queue depth exceeds 10, `splice(0, 5)` removes the oldest five entries,
then the new fragment is pushed at the tail. -/
def enqueueArrival (q : List Frag) (d : Frag) : List Frag :=
  (if q.length > queueDepthTrigger then q.drop spliceDropCount else q) ++ [d]

/-- Effect of one binary WebSocket message on the buffer state
(`handleWebSocketMessage`): admission into the queue; the subsequent
`processBuffer()` call is a separate step (`BufStep.beginProc`), guarded
exactly as in the source by `!processingQueue.current`. -/
def arriveFn (s : BufState) (d : Frag) : BufState :=
  { s with queue := enqueueArrival s.queue d, arrived := s.arrived ++ [d] }

/-- Successful `appendBuffer` call in `processNextChunk`: the shifted head
is committed, `lastSuccessfulAppend` is stamped and `chunkErrorCount` is
reset to 0; `processingQueue` stays true until `updateend`. -/
def commitOk (s : BufState) (d : Frag) (rest : List Frag) : BufState :=
  { s with queue := rest, errCount := 0, attempts := s.attempts ++ [d] }

/-- Throwing `appendBuffer` call (catch branch of `processNextChunk`):
`chunkErrorCount` is incremented; under the limit, `processNextChunk` is
rescheduled after 50 ms (the shifted head is NOT unshifted back — the
source comment reads "Just skip the corrupted chunk and continue");
at or over the limit, the whole queue is discarded, the counter is reset
and the loop released. -/
def commitFail (s : BufState) (d : Frag) (rest : List Frag) : BufState :=
  if s.errCount + 1 < maxChunkErrors then
    { s with queue := rest, errCount := s.errCount + 1, attempts := s.attempts ++ [d] }
  else
    { s with queue := [], errCount := 0, processing := false, attempts := s.attempts ++ [d] }

/-- Busy-sink branch of `processNextChunk` (sourceBuffer missing, mediaSource
not open, or `updating`): the shifted head is unshifted back when
`byteLength > 0`, and after 20 ms the loop flag is cleared and
`processBuffer` re-invoked. The delayed flag clear is folded into this
step; the re-invocation is `BufStep.beginProc`. No `appendBuffer` call
is made on this path. -/
def commitBusy (s : BufState) (d : Frag) (rest : List Frag) : BufState :=
  { s with queue := (if d.length > 0 then d :: rest else rest), processing := false }

/-- Labelled transition relation of the client ingest buffer. Environment
choices (arrival, sink ready / busy / throwing, `updateend` firing) are
the nondeterminism; each constructor is one synchronous code path of
part_002. -/
inductive BufStep : BufState → BufState → Prop
  /-- a binary message arrives (`handleWebSocketMessage`) -/
  | arrive (s : BufState) (d : Frag) : BufStep s (arriveFn s d)
  /-- Call `processBuffer()` passes its guard (`!processingQueue`, nonempty
  queue) and sets `processingQueue.current = true` -/
  | beginProc (s : BufState) : s.processing = false → s.queue ≠ [] →
      BufStep s { s with processing := true }
  /-- Run of `processNextChunk` finds the queue empty and releases the loop -/
  | deqEmpty (s : BufState) : s.processing = true → s.queue = [] →
      BufStep s { s with processing := false }
  /-- Run of `processNextChunk` shifts the head and `appendBuffer` succeeds -/
  | deqOk (s : BufState) (d : Frag) (rest : List Frag) : s.processing = true →
      s.queue = d :: rest → BufStep s (commitOk s d rest)
  /-- Run of `processNextChunk` shifts the head and `appendBuffer` throws -/
  | deqFail (s : BufState) (d : Frag) (rest : List Frag) : s.processing = true →
      s.queue = d :: rest → BufStep s (commitFail s d rest)
  /-- Run of `processNextChunk` shifts the head but the sink is not ready -/
  | deqBusy (s : BufState) (d : Frag) (rest : List Frag) : s.processing = true →
      s.queue = d :: rest → BufStep s (commitBusy s d rest)
  /-- the sink's `updateend` (or `error`) event fires, releasing the loop -/
  | updateEnd (s : BufState) : BufStep s { s with processing := false }

/-- Reachability of a buffer state from the hook's initial refs under any
interleaving of arrivals, sink readiness and sink events. -/
def ReachableBuf (s : BufState) : Prop := Relation.ReflTransGen BufStep initBuf s

/-- Iterated throwing appends: `runFails s k` applies `commitFail` to the
current queue head `k` times (a run of `k` consecutive `appendBuffer`
throws, no other event interleaved). -/
def runFails (s : BufState) : Nat → BufState
  | 0 => s
  | k + 1 =>
    match s.queue with
    | [] => s
    | d :: rest => runFails (commitFail s d rest) k

/-! ## Stream multiplexer backpressure (server `onData`, src/unnamed/part_000) -/

/-- Buffer limit in the server's flow control:
`const MAX_BUFFER_SIZE = 5 * 1024 * 1024`. -/
def maxBufferSize : Nat := 5 * 1024 * 1024

/-- Observable state of the WebSocket sink that `onData` reads. -/
structure WsSink where
  /-- Mirrors `wsClient.readyState === WebSocket.OPEN`. -/
  readyStateOpen : Bool
  /-- Mirrors `wsClient.bufferedAmount`. -/
  bufferedAmount : Nat
  deriving Repr, DecidableEq

/-- Action taken by `onData` for one stdout chunk. -/
inductive SendAction
  /-- Call `wsClient.send(data, ..., callback)` with the binary flag set -/
  | send (chunk : Frag)
  /-- early `return` inside the open branch: chunk skipped, never queued -/
  | drop
  /-- socket not open: the handler body does nothing -/
  | ignore
  deriving Repr, DecidableEq

/-- The server's `onData` handler for ffmpeg stdout chunks: when the socket
is open and `bufferedAmount > MAX_BUFFER_SIZE`, the chunk is skipped;
when open and under the limit it is sent; when not open, nothing happens. -/
def onData (ws : WsSink) (chunk : Frag) : SendAction :=
  if ws.readyStateOpen then
    if ws.bufferedAmount > maxBufferSize then SendAction.drop
    else SendAction.send chunk
  else SendAction.ignore

/-! ## FFmpeg filter graph construction (`createTranscoder`, part_000 and
src/proxy/index.js — both build the same filter string, the proxy with
configurable scale dimensions defaulting to 480x270) -/

/-- Scale filter chain: `[i:v]scale=480:270[vi]` for each input index,
joined with `;`. -/
def scaleFilters (ids : List Nat) : String :=
  String.intercalate ";"
    ((List.range ids.length).map fun i =>
      "[" ++ toString i ++ ":v]scale=480:270[v" ++ toString i ++ "]")

/-- Concatenated scaled input labels `[v0][v1]...`. -/
def scaledInputs (ids : List Nat) : String :=
  String.join ((List.range ids.length).map fun i => "[v" ++ toString i ++ "]")

/-- The tile layout literal baked into the xstack template string. It names
six tile positions (3 columns x 2 rows) and does not depend on the number
of inputs. -/
def tileLayout : String := "0_0|w0_0|w0+w1_0|0_h0|w0_h0|w0+w1_h0"

/-- The `xstackFilter` template literal of `createTranscoder`:
`scaleFilters;scaledInputs` then `xstack=inputs=N:layout=...[v]` where `N`
is `cameraIds.length` and the layout is always `tileLayout`. -/
def xstackFilter (ids : List Nat) : String :=
  scaleFilters ids ++ ";" ++ scaledInputs ids ++ "xstack=inputs=" ++
    toString ids.length ++ ":layout=" ++ tileLayout ++ "[v]"

/-! ## Proxy server connection admission (src/proxy/index.js)

The proxy's `config` object declares `camera: { username, password, host,
port, path }` — it has NO `maxCameras` field, so the connection handler's
`cameraIds.length !== config.camera.maxCameras` compares a number against
`undefined`. -/

/-- Value of `config.camera.maxCameras` in the proxy: the field is absent
from the config object literal, i.e. `undefined`. -/
def proxyMaxCameras : Option Nat := none

/-- JavaScript strict inequality `len !== m` where `m` may be `undefined`:
a number is `!==` `undefined` regardless of its value. -/
def jsStrictNeqNat (len : Nat) (m : Option Nat) : Bool :=
  match m with
  | some v => len != v
  | none => true

/-- Accumulator pass of `split(",")` over the parameter's characters:
`acc` holds the current field reversed; a comma closes the field. -/
def splitCommasAux : List Char → List Char → List (List Char)
  | acc, [] => [acc.reverse]
  | acc, c :: cs =>
    if c = ',' then acc.reverse :: splitCommasAux [] cs
    else splitCommasAux (c :: acc) cs

/-- JavaScript `str.split(",")` on the character list of `str` (on the
empty string it yields one empty field, as in JS). -/
def splitCommas (s : List Char) : List (List Char) :=
  splitCommasAux [] s

/-- Outcome of the proxy's `wss.on("connection")` handler before any
message is processed. -/
inductive ProxyOutcome
  /-- Call `ws.close(code, reason)` followed by `return` -/
  | rejected (closeCode : Nat) (reason : String)
  /-- handler proceeds to install the message/close listeners -/
  | accepted (cameraIds : List (List Char)) (codecType : String)
  deriving Repr, DecidableEq

/-- Connection admission in src/proxy/index.js: missing `cameraIds`
parameter closes with 1008 "Camera IDs required"; then the id list's
length is compared with `config.camera.maxCameras` by `!==` and a
mismatch closes with 1008 "Exactly 6 camera IDs required". The query
parameter is modelled as the character list of its string value. -/
def proxyConnection (cameraIdsParam : Option (List Char)) (codecType : String) : ProxyOutcome :=
  match cameraIdsParam with
  | none => ProxyOutcome.rejected 1008 "Camera IDs required"
  | some p =>
    let ids := splitCommas p
    if jsStrictNeqNat ids.length proxyMaxCameras then
      ProxyOutcome.rejected 1008 "Exactly 6 camera IDs required"
    else
      ProxyOutcome.accepted ids codecType

/-! ## Main server per-connection session machine (part_000)

Closure state of one `wss.on("connection")` handler: the flags
`connectionClosed`, `isInitialized`, `memoryErrorDetected`,
`useMemoryOptimization`, the `transcoder` variable, and — as ghost
data — the multiset of ffmpeg child processes of this connection that
are currently alive, identified by spawn order.

The `codecType` binding of the connection handler is declared `const`;
the `request_init` branch of the message handler assigns to it when the
message carries a `codecType` field, which raises a `TypeError` that the
surrounding `try`/`catch` swallows BEFORE `startTranscoder()` runs. -/

/-- Group size of the sequential (memory-optimized) transcoder:
`const maxConcurrentCameras = 3`. -/
def maxConcurrentCameras : Nat := 3

/-- Dwell before the sequential transcoder switches groups:
`setTimeout(..., 15000)`. -/
def groupSwitchDelayMs : Nat := 15000

/-- Delay of the auto-start timer installed at connection time:
`setTimeout(..., 100)`. -/
def autoStartDelayMs : Nat := 100

/-- Splitting of `cameraIds` into groups of `maxConcurrentCameras` by the
`for (let i = 0; i < cameraIds.length; i += maxConcurrentCameras)` loop
of `createSequentialTranscoder` (fuel = list length bounds the loop). -/
def cameraGroupsAux : Nat → List Nat → List (List Nat)
  | 0, _ => []
  | _, [] => []
  | fuel + 1, ids@(_ :: _) =>
    ids.take maxConcurrentCameras :: cameraGroupsAux fuel (ids.drop maxConcurrentCameras)

def cameraGroups (ids : List Nat) : List (List Nat) :=
  cameraGroupsAux ids.length ids

/-- Rotation bookkeeping of one `createSequentialTranscoder` call:
`cameraGroups`, `currentGroupIndex`, and the pid of `currentTranscoder`
when it is alive. -/
structure SeqCtl where
  groups : List (List Nat)
  currentGroupIndex : Nat
  currentPid : Option Nat
  deriving Repr, DecidableEq

/-- The connection's `transcoder` variable: either a plain `createTranscoder`
child process or a sequential-controller object. -/
inductive Transcoder
  | plain (pid : Nat)
  | seq (ctl : SeqCtl)
  deriving Repr, DecidableEq

structure ConnState where
  /-- ids parsed from the `cameraIds` query parameter (`split(",").slice(0, 6)`) -/
  cameraIds : List Nat
  /-- Mirrors `connectionClosed`. -/
  connectionClosed : Bool
  /-- Mirrors `ws.readyState === WebSocket.OPEN`. -/
  wsOpen : Bool
  /-- Mirrors `isInitialized`. -/
  isInitialized : Bool
  /-- Mirrors `memoryErrorDetected`. -/
  memoryErrorDetected : Bool
  /-- Mirrors `useMemoryOptimization` (query parameter, fixed per connection). -/
  useMemoryOptimization : Bool
  /-- whether the 100 ms auto-start timer has already fired -/
  timeoutFired : Bool
  /-- the `transcoder` variable -/
  transcoder : Option Transcoder
  /-- ghost: pids (in spawn order) of this connection's ffmpeg processes
  currently alive -/
  alive : List Nat
  /-- ghost: next fresh pid -/
  nextPid : Nat
  deriving Repr, DecidableEq

/-- Connection-handler closure state right after `wss.on("connection")`
runs (before any message, timer or close event). -/
def initConn (ids : List Nat) (memOpt : Bool) : ConnState :=
  { cameraIds := ids, connectionClosed := false, wsOpen := true,
    isInitialized := false, memoryErrorDetected := false,
    useMemoryOptimization := memOpt, timeoutFired := false,
    transcoder := none, alive := [], nextPid := 1 }

/-- Effect of one `createTranscoder` call: spawns a fresh ffmpeg child and
assigns it to `transcoder`. Nothing in `createTranscoder` or its caller
kills a previously assigned process. -/
def spawnPlain (s : ConnState) : ConnState :=
  { s with alive := s.alive ++ [s.nextPid],
           transcoder := some (Transcoder.plain s.nextPid),
           nextPid := s.nextPid + 1 }

/-- Effect of one `createSequentialTranscoder` call: groups are computed,
`currentGroupIndex` starts at 0, and `startNextGroup()` immediately
spawns a transcoder for the first group. -/
def spawnSequential (s : ConnState) : ConnState :=
  { s with alive := s.alive ++ [s.nextPid],
           transcoder := some (Transcoder.seq
             { groups := cameraGroups s.cameraIds,
               currentGroupIndex := 0,
               currentPid := some s.nextPid }),
           nextPid := s.nextPid + 1 }

/-- Call `transcoder.kill()`: a plain child is SIGKILLed; a sequential
controller's `kill` SIGKILLs its `currentTranscoder` if alive. -/
def killCurrent (s : ConnState) : ConnState :=
  match s.transcoder with
  | some (Transcoder.plain p) => { s with alive := s.alive.erase p }
  | some (Transcoder.seq ctl) =>
    match ctl.currentPid with
    | some p => { s with alive := s.alive.erase p }
    | none => s
  | none => s

/-- The connection handler's `startTranscoder`: bails out when the
connection is closed or the socket is not open; otherwise picks the
sequential transcoder when `useMemoryOptimization || memoryErrorDetected`
holds and the plain one otherwise. It never kills an existing
transcoder. -/
def startTranscoder (s : ConnState) : ConnState :=
  if s.connectionClosed || !s.wsOpen then s
  else if s.useMemoryOptimization || s.memoryErrorDetected then spawnSequential s
  else spawnPlain s

/-- Parsed client control messages as the `ws.on("message")` handler
distinguishes them. `requestInit` carries the optional `codecType`
field of the JSON payload. -/
inductive ClientMsg
  /-- Payload of shape type request_init with an optional codecType field -/
  | requestInit (codecType : Option String)
  /-- Payload of shape type switch_to_memory_optimized (the spec's
  `switch_to_degraded_mode`) -/
  | switchMemOpt
  /-- Payload of shape type ping with a numeric timestamp -/
  | ping (ts : Nat)
  /-- any other parsable JSON payload -/
  | unknownJson
  /-- a payload on which `JSON.parse` throws -/
  | nonJson
  deriving Repr, DecidableEq

/-- Messages the server can send from inside the `ws.on("message")`
handler. (The source handler contains no `ws.send` call at all; the
constructor enumerates what the spec's protocol would require so that
its absence is statable.) -/
inductive OutMsg
  | pong (ts : Nat)
  deriving Repr, DecidableEq

/-- The `ws.on("message")` handler of part_000, returning the new closure
state and the list of messages sent back on the socket.

`request_init` with `!isInitialized`: when the payload has a `codecType`
field, the assignment `codecType = msg.codecType` to the `const` binding
throws a `TypeError` caught by the surrounding `catch`, so neither
`startTranscoder()` nor `isInitialized = true` runs; without the field,
the transcoder is started and `isInitialized` set.

`switch_to_memory_optimized` with `isInitialized`: sets
`memoryErrorDetected`, kills the current transcoder, and starts a
sequential transcoder directly.

Every other message (including `ping`) matches no branch and has no
effect; no branch sends anything. -/
def handleMsgOut (s : ConnState) (m : ClientMsg) : ConnState × List OutMsg :=
  match m with
  | ClientMsg.requestInit codec =>
    if !s.isInitialized then
      match codec with
      | some _ => (s, [])
      | none => ({ startTranscoder s with isInitialized := true }, [])
    else (s, [])
  | ClientMsg.switchMemOpt =>
    if s.isInitialized then
      (spawnSequential (killCurrent { s with memoryErrorDetected := true }), [])
    else (s, [])
  | _ => (s, [])

/-- External events acting on one connection's closure state. -/
inductive ConnEvent
  /-- a WebSocket message arrives -/
  | msg (m : ClientMsg)
  /-- the 100 ms auto-start timer fires (at most once) -/
  | timeout100
  /-- the transport closes: the connection `cleanup` kills `transcoder`,
  and every spawned `createTranscoder`'s own `ws.on("close")` cleanup
  kills its process, so no child of this connection stays alive -/
  | wsClose
  /-- a 15 s group-switch timer of the sequential transcoder fires -/
  | dwellTick
  deriving Repr, DecidableEq

/-- One event step of the connection machine. The auto-start timer callback
checks `!connectionClosed && ws.readyState === OPEN` — but not
`isInitialized` — before calling `startTranscoder()`. The sequential
dwell timer kills the current group's process, advances
`currentGroupIndex` (wrapping to 0 at `groups.length`), and spawns the
next group's transcoder. -/
def connStep (s : ConnState) (e : ConnEvent) : ConnState :=
  match e with
  | ConnEvent.msg m => (handleMsgOut s m).1
  | ConnEvent.timeout100 =>
    if s.timeoutFired then s
    else
      let s1 := { s with timeoutFired := true }
      if !s1.connectionClosed && s1.wsOpen then
        { startTranscoder s1 with isInitialized := true }
      else s1
  | ConnEvent.wsClose =>
    if s.connectionClosed then { s with wsOpen := false }
    else { s with connectionClosed := true, wsOpen := false, alive := [] }
  | ConnEvent.dwellTick =>
    match s.transcoder with
    | some (Transcoder.seq ctl) =>
      let aliveAfterKill :=
        match ctl.currentPid with
        | some p => s.alive.erase p
        | none => s.alive
      let idxRaw := ctl.currentGroupIndex + 1
      let idx := if idxRaw ≥ ctl.groups.length then 0 else idxRaw
      { s with alive := aliveAfterKill ++ [s.nextPid],
               nextPid := s.nextPid + 1,
               transcoder := some (Transcoder.seq
                 { groups := ctl.groups, currentGroupIndex := idx,
                   currentPid := some s.nextPid }) }
    | _ => s

/-- Folding a sequence of events over the connection machine. -/
def connRun (s : ConnState) (es : List ConnEvent) : ConnState :=
  es.foldl connStep s

/-! ## Concrete demonstration states (inputs for evaluated theorems) -/

/-- Buffer state with two queued fragments, the commit loop engaged and a
reset error counter (fields: queue, processing, errCount, arrived,
attempts). -/
def failDemoState : BufState := ⟨[[1], [2]], true, 0, [[1], [2]], []⟩

/-- Buffer state with two queued fragments and seven accumulated
consecutive errors. -/
def midErrDemoState : BufState := ⟨[[3], [4]], true, 7, [[3], [4]], []⟩

/-- Buffer state with fifty queued fragments, the loop engaged and a reset
error counter. -/
def budgetDemoState : BufState := ⟨List.replicate 50 [0], true, 0, [], []⟩

/-! ## Helper lemmas -/

/-- Queue admission never reorders: the part of the queue kept by the
splice step is a sublist (order-preserving) of the old queue. -/
lemma enqueue_keep_sublist (q : List Frag) :
    (if q.length > queueDepthTrigger then q.drop spliceDropCount else q) <+ q := by
  split
  · exact List.drop_sublist _ _
  · exact List.Sublist.refl q

/-- Every step of the client buffer keeps `attempts ++ queue` a sublist of
the arrival history. -/
lemma bufStep_preserves {s t : BufState} (hst : BufStep s t)
    (h : s.attempts ++ s.queue <+ s.arrived) :
    t.attempts ++ t.queue <+ t.arrived := by
  cases hst with
  | arrive d =>
    show s.attempts ++ enqueueArrival s.queue d <+ s.arrived ++ [d]
    unfold enqueueArrival
    rw [← List.append_assoc]
    exact List.Sublist.append
      (((enqueue_keep_sublist s.queue).append_left s.attempts).trans h)
      (List.Sublist.refl [d])
  | beginProc h1 h2 => exact h
  | deqEmpty h1 h2 => exact h
  | updateEnd => exact h
  | deqOk d rest h1 h2 =>
    show (s.attempts ++ [d]) ++ rest <+ s.arrived
    rw [List.append_assoc, List.singleton_append, ← h2]
    exact h
  | deqFail d rest h1 h2 =>
    unfold commitFail
    split
    · show (s.attempts ++ [d]) ++ rest <+ s.arrived
      rw [List.append_assoc, List.singleton_append, ← h2]
      exact h
    · show (s.attempts ++ [d]) ++ [] <+ s.arrived
      rw [List.append_nil]
      refine List.Sublist.trans ?_ (h2 ▸ h)
      exact List.Sublist.append_left ((List.nil_sublist rest).cons₂ d) s.attempts
  | deqBusy d rest h1 h2 =>
    unfold commitBusy
    split
    · show s.attempts ++ (d :: rest) <+ s.arrived
      rw [← h2]
      exact h
    · show s.attempts ++ rest <+ s.arrived
      refine List.Sublist.trans ?_ (h2 ▸ h)
      exact List.Sublist.append_left (List.sublist_cons_self d rest) s.attempts

/-- In every reachable buffer state, the append-call history followed by
the pending queue is a sublist of the arrival history. -/
lemma reachableBuf_sublist (s : BufState) (h : ReachableBuf s) :
    s.attempts ++ s.queue <+ s.arrived := by
  unfold ReachableBuf at h
  induction h with
  | refl => exact List.Sublist.refl []
  | tail hab hbc ih => exact bufStep_preserves hbc ih

/-- One admission keeps the queue within `queueDepthTrigger + 1` entries. -/
lemma enqueueArrival_length (q : List Frag) (d : Frag)
    (h : q.length ≤ queueDepthTrigger + 1) :
    (enqueueArrival q d).length ≤ queueDepthTrigger + 1 := by
  unfold enqueueArrival
  rw [List.length_append]
  split
  · rw [List.length_drop]
    unfold queueDepthTrigger spliceDropCount at *
    simp only [List.length_singleton]
    omega
  · unfold queueDepthTrigger at *
    simp only [List.length_singleton]
    omega

/-- Folded admissions keep the queue within `queueDepthTrigger + 1` entries. -/
lemma foldl_enqueue_length (ds : List Frag) :
    ∀ q : List Frag, q.length ≤ queueDepthTrigger + 1 →
      (ds.foldl enqueueArrival q).length ≤ queueDepthTrigger + 1 := by
  induction ds with
  | nil => intro q h; simpa using h
  | cons d ds ih => intro q h; exact ih _ (enqueueArrival_length q d h)

/-- Folded admissions retain a suffix of the arrivals: drops only happen at
the old end of the queue. -/
lemma foldl_enqueue_suffix (ds : List Frag) :
    ∀ q base : List Frag, q <:+ base →
      ds.foldl enqueueArrival q <:+ base ++ ds := by
  induction ds with
  | nil => intro q base h; simpa using h
  | cons d ds ih =>
    intro q base h
    have hkeep : (if q.length > queueDepthTrigger then q.drop spliceDropCount else q) <:+ q := by
      split
      · exact List.drop_suffix _ _
      · exact List.suffix_refl q
    obtain ⟨t, ht⟩ := hkeep.trans h
    have h1 : enqueueArrival q d <:+ base ++ [d] :=
      ⟨t, by unfold enqueueArrival; rw [← List.append_assoc, ht]⟩
    have h2 := ih (enqueueArrival q d) (base ++ [d]) h1
    rw [List.append_assoc, List.singleton_append] at h2
    simpa using h2

/-- Unfolding of `runFails` at a successor count when a chunk is queued. -/
lemma runFails_cons (s : BufState) (d : Frag) (rest : List Frag)
    (h : s.queue = d :: rest) (k : Nat) :
    runFails s (k + 1) = runFails (commitFail s d rest) k := by
  conv_lhs => rw [runFails]
  rw [h]

/-- Running as many consecutive throwing appends as the remaining error
budget clears the queue, zeroes the counter and releases the loop. -/
lemma runFails_clears : ∀ (j : Nat) (s : BufState), 0 < j →
    s.errCount + j = maxChunkErrors → j ≤ s.queue.length →
    (runFails s j).queue = [] ∧ (runFails s j).errCount = 0 ∧
      (runFails s j).processing = false := by
  intro j
  induction j with
  | zero => intro s h0; exact absurd h0 (Nat.lt_irrefl 0)
  | succ j ih =>
    intro s _ herr hlen
    cases hq : s.queue with
    | nil => rw [hq] at hlen; simp at hlen
    | cons d rest =>
      rw [runFails_cons s d rest hq j]
      cases Nat.eq_zero_or_pos j with
      | inl hj0 =>
        subst hj0
        have hnot : ¬(s.errCount + 1 < maxChunkErrors) := by omega
        have hcf : commitFail s d rest =
            { s with queue := [], errCount := 0, processing := false,
                     attempts := s.attempts ++ [d] } := by
          unfold commitFail; rw [if_neg hnot]
        rw [hcf]
        exact ⟨rfl, rfl, rfl⟩
      | inr hjpos =>
        have hlt : s.errCount + 1 < maxChunkErrors := by omega
        have hcf : commitFail s d rest =
            { s with queue := rest, errCount := s.errCount + 1,
                     attempts := s.attempts ++ [d] } := by
          unfold commitFail; rw [if_pos hlt]
        rw [hcf]
        refine ih _ hjpos (by simp; omega) ?_
        rw [hq] at hlen
        simp at hlen ⊢
        omega

/-- Index arithmetic of the sequential rotation: starting from a valid
group index, `k` dwell ticks land on index `(start + k) mod groups`. -/
lemma dwell_rotation : ∀ (k : Nat) (s : ConnState) (ctl : SeqCtl) (n m : Nat),
    s.transcoder = some (Transcoder.seq ctl) → ctl.groups.length = n →
    ctl.currentGroupIndex = m → m < n →
    ∃ ctl', (connRun s (List.replicate k ConnEvent.dwellTick)).transcoder =
        some (Transcoder.seq ctl') ∧ ctl'.groups = ctl.groups ∧
        ctl'.currentGroupIndex = (m + k) % n := by
  intro k
  induction k with
  | zero =>
    intro s ctl n m h hn hm hmn
    refine ⟨ctl, by simpa [connRun] using h, rfl, ?_⟩
    rw [hm, Nat.add_zero, Nat.mod_eq_of_lt hmn]
  | succ k ih =>
    intro s ctl n m h hn hm hmn
    have hstep : (connStep s ConnEvent.dwellTick).transcoder = some (Transcoder.seq
        { groups := ctl.groups,
          currentGroupIndex :=
            if ctl.currentGroupIndex + 1 ≥ ctl.groups.length then 0
            else ctl.currentGroupIndex + 1,
          currentPid := some s.nextPid }) := by
      unfold connStep
      rw [h]
    have hidx : (if ctl.currentGroupIndex + 1 ≥ ctl.groups.length then 0
        else ctl.currentGroupIndex + 1) = (m + 1) % n := by
      rw [hm, hn]
      by_cases hc : m + 1 ≥ n
      · rw [if_pos hc]
        have hmn1 : m + 1 = n := by omega
        rw [hmn1, Nat.mod_self]
      · rw [if_neg hc, Nat.mod_eq_of_lt (by omega)]
    rw [hidx] at hstep
    obtain ⟨ctl', h1, h2, h3⟩ := ih (connStep s ConnEvent.dwellTick)
      { groups := ctl.groups, currentGroupIndex := (m + 1) % n,
        currentPid := some s.nextPid } n ((m + 1) % n) hstep hn rfl
      (Nat.mod_lt _ (by omega))
    refine ⟨ctl', ?_, h2, ?_⟩
    · rw [List.replicate_succ]
      simpa [connRun] using h1
    · rw [h3, Nat.mod_add_mod]
      have harith : m + 1 + k = m + (k + 1) := by omega
      rw [harith]

/-! ## Claim theorems -/

/-- C1: the spec's invariant P4 ("at most one Encoder Process Handle is
alive at any instant" per session) is the intent, but the code violates
it: the 100 ms auto-start timer callback checks `connectionClosed` and
the socket state but not `isInitialized`, and `startTranscoder` never
kills a previous transcoder — so a `request_init` (without a `codecType`
field) arriving before the timer fires leaves TWO ffmpeg processes alive
once the timer runs. This theorem evaluates the connection machine on
that event sequence: both spawned processes (pids 1 and 2) are alive. -/
theorem c1_double_encoder :
    (connRun (initConn [1, 2, 3, 4, 5, 6] false)
        [ConnEvent.msg (ClientMsg.requestInit none), ConnEvent.timeout100]).alive = [1, 2] ∧
    2 ≤ (connRun (initConn [1, 2, 3, 4, 5, 6] false)
        [ConnEvent.msg (ClientMsg.requestInit none), ConnEvent.timeout100]).alive.length := by
  decide

/-- C2: in every state of the client ingest buffer reachable under any
interleaving of fragment arrivals, busy-sink re-queues, oldest-half
drops and sink events, the sequence of `appendBuffer` calls is a
sublist (an order-preserving subsequence) of the arrival sequence:
fragments are never appended out of arrival order. -/
theorem c2_ingest_ordering (s : BufState) (h : ReachableBuf s) :
    s.attempts <+ s.arrived :=
  (List.sublist_append_left s.attempts s.queue).trans (reachableBuf_sublist s h)

/-- Witness for C2 at a concrete three-step trace (arrival of fragment
`[1]`, loop entry, successful append). -/
theorem c2_ingest_ordering_witness :
    (commitOk { arriveFn initBuf [1] with processing := true } [1] []).attempts <+
      (commitOk { arriveFn initBuf [1] with processing := true } [1] []).arrived := by
  apply c2_ingest_ordering
  have h1 : BufStep initBuf (arriveFn initBuf [1]) := BufStep.arrive initBuf [1]
  have h2 : BufStep (arriveFn initBuf [1]) { arriveFn initBuf [1] with processing := true } :=
    BufStep.beginProc (arriveFn initBuf [1]) rfl (by decide)
  have h3 : BufStep { arriveFn initBuf [1] with processing := true }
      (commitOk { arriveFn initBuf [1] with processing := true } [1] []) :=
    BufStep.deqOk _ [1] [] rfl rfl
  exact Relation.ReflTransGen.tail
    (Relation.ReflTransGen.tail (Relation.ReflTransGen.single h1) h2) h3

/-- C3, counterexample: the claim's bound ("queue length ≤ 10 after any
burst exceeding the bound") fails — the admission code tests
`length > 10` BEFORE pushing, so a burst of 11 arrivals into an empty
queue (no processing interleaved) leaves the queue at 11 entries. -/
theorem c3_counterexample :
    ¬((((List.range 11).map (fun n => ([n] : Frag))).foldl enqueueArrival []).length
        ≤ queueDepthTrigger) := by
  decide

/-- C3 amended: after any burst of arrivals the queue holds at most
`queueDepthTrigger + 1 = 11` entries (not 10 as claimed); the retained
entries are the most recently arrived ones (the residual queue is a
suffix of the burst); and whenever an arrival finds more than 10 queued
entries, the oldest `spliceDropCount = 5` entries are dropped before the
new fragment is appended. -/
theorem c3_amended :
    (∀ ds q : List Frag, q.length ≤ queueDepthTrigger + 1 →
        (ds.foldl enqueueArrival q).length ≤ queueDepthTrigger + 1) ∧
    (∀ ds : List Frag, ds.foldl enqueueArrival [] <:+ ds) ∧
    (∀ (q : List Frag) (d : Frag), q.length > queueDepthTrigger →
        enqueueArrival q d = q.drop spliceDropCount ++ [d]) := by
  refine ⟨fun ds q h => foldl_enqueue_length ds q h, fun ds => ?_, fun q d h => ?_⟩
  · simpa using foldl_enqueue_suffix ds [] [] (List.suffix_refl [])
  · unfold enqueueArrival
    rw [if_pos h]

/-- Witness for C3's amended statement at a 12-fragment burst and at an
11-entry queue. -/
theorem c3_amended_witness :
    ((((List.range 12).map (fun n => ([n] : Frag))).foldl enqueueArrival []).length
        ≤ queueDepthTrigger + 1) ∧
    enqueueArrival (List.replicate 11 ([0] : Frag)) [1] =
      (List.replicate 11 ([0] : Frag)).drop spliceDropCount ++ [[1]] :=
  ⟨c3_amended.1 _ [] (by decide), c3_amended.2.2 _ [1] (by decide)⟩

/-- C4, counterexample: the claim says a failed (throwing) append under
the error limit is retried 'without dropping the failed fragment'. In
the code the failed chunk was already shifted off the queue and the
catch branch never unshifts it back (its comment: 'Just skip the
corrupted chunk and continue'). Concretely: queue `[[1],[2]]`, error
count 0 < 50, append of `[1]` throws — the resulting queue is `[[2]]`,
fragment `[1]` is gone, so the next try attempts `[2]`, not `[1]`. -/
theorem c4_counterexample :
    (commitFail failDemoState [1] [[2]]).queue = [[2]] ∧
    ([1] : Frag) ∉ (commitFail failDemoState [1] [[2]]).queue ∧
    (commitFail failDemoState [1] [[2]]).errCount = 1 := by
  decide

/-- C4 amended: when an append attempt throws and the consecutive-error
counter stays under `maxChunkErrors = 50`, the loop stays engaged and
retries after the 50 ms delay with the NEXT fragment: the failed
fragment is discarded (the new queue is exactly the rest), the counter
is incremented, and the failed fragment is recorded as attempted. -/
theorem c4_amended (s : BufState) (d : Frag) (rest : List Frag)
    (hq : s.queue = d :: rest) (hlim : s.errCount + 1 < maxChunkErrors)
    (hp : s.processing = true) :
    (commitFail s d rest).queue = rest ∧
    (commitFail s d rest).processing = true ∧
    (commitFail s d rest).errCount = s.errCount + 1 ∧
    (commitFail s d rest).attempts = s.attempts ++ [d] := by
  unfold commitFail
  rw [if_pos hlim]
  exact ⟨rfl, hp, rfl, rfl⟩

/-- Witness for C4's amended statement at a concrete two-chunk queue. -/
theorem c4_amended_witness :
    (commitFail midErrDemoState [3] [[4]]).queue = [[4]] ∧
    (commitFail midErrDemoState [3] [[4]]).processing = true ∧
    (commitFail midErrDemoState [3] [[4]]).errCount = midErrDemoState.errCount + 1 ∧
    (commitFail midErrDemoState [3] [[4]]).attempts = midErrDemoState.attempts ++ [[3]] :=
  c4_amended _ [3] [[4]] rfl (by decide) rfl

/-- C5: exactly `maxChunkErrors = 50` consecutive throwing appends (from a
reset counter) clear the whole queue, reset the counter to zero and
release the loop flag; a successful append always resets the counter to
zero; and a fragment arriving after the clearing finds a quiescent
buffer (counter 0, loop idle, the fragment queued), so it is processed
normally. -/
theorem c5_error_budget :
    (∀ s : BufState, s.errCount = 0 → maxChunkErrors ≤ s.queue.length →
        (runFails s maxChunkErrors).queue = [] ∧
        (runFails s maxChunkErrors).errCount = 0 ∧
        (runFails s maxChunkErrors).processing = false) ∧
    (∀ (s : BufState) (d : Frag) (rest : List Frag), (commitOk s d rest).errCount = 0) ∧
    (∀ (s : BufState) (d : Frag), s.errCount = 0 → s.processing = false →
        (arriveFn s d).errCount = 0 ∧ (arriveFn s d).processing = false ∧
        (arriveFn s d).queue ≠ []) := by
  refine ⟨fun s h0 hlen => runFails_clears maxChunkErrors s (by decide) (by omega) hlen,
    fun s d rest => rfl, fun s d h0 hp => ⟨h0, hp, ?_⟩⟩
  simp [arriveFn, enqueueArrival]

/-- Witness for C5 at a 50-chunk queue with a reset counter. -/
theorem c5_error_budget_witness :
    (runFails budgetDemoState maxChunkErrors).queue = [] ∧
    (runFails budgetDemoState maxChunkErrors).errCount = 0 ∧
    (runFails budgetDemoState maxChunkErrors).processing = false :=
  c5_error_budget.1 _ rfl (by decide)

/-- C6: while the socket is open, a chunk arriving when the sink's
buffered (unacknowledged) byte count exceeds 5MB is dropped by the
multiplexer — not queued, not sent — and a chunk arriving once the
buffered amount is back at or under the threshold is sent again. -/
theorem c6_backpressure (ws : WsSink) (chunk : Frag)
    (hopen : ws.readyStateOpen = true) :
    (ws.bufferedAmount > maxBufferSize → onData ws chunk = SendAction.drop) ∧
    (ws.bufferedAmount ≤ maxBufferSize → onData ws chunk = SendAction.send chunk) := by
  constructor
  · intro h
    unfold onData
    rw [hopen]
    simp only [if_true]
    rw [if_pos h]
  · intro h
    unfold onData
    rw [hopen]
    simp only [if_true]
    rw [if_neg (by omega)]

/-- Witness for C6 just above and at the 5MB threshold. -/
theorem c6_backpressure_witness :
    onData { readyStateOpen := true, bufferedAmount := 5 * 1024 * 1024 + 1 } [9] =
      SendAction.drop ∧
    onData { readyStateOpen := true, bufferedAmount := 5 * 1024 * 1024 } [9] =
      SendAction.send [9] :=
  ⟨(c6_backpressure _ [9] rfl).1 (by decide), (c6_backpressure _ [9] rfl).2 (by decide)⟩

/-- C7: the claim (reject exactly when the id count differs from the
configured 6, accept exactly 6) matches the proxy's intent — its close
reason literally reads "Exactly 6 camera IDs required" — but the code is
wrong: the proxy's own `config.camera` object has no `maxCameras` field,
so the guard compares the count against `undefined` with `!==`, which
holds for every count. Evaluated here: a connection supplying exactly 6
ids is rejected with the policy close code 1008, and indeed every
connection with a `cameraIds` parameter is rejected. -/
theorem c7_cardinality_check :
    (splitCommas "1,2,3,4,5,6".toList).length = 6 ∧
    proxyConnection (some "1,2,3,4,5,6".toList) "mp4" =
      ProxyOutcome.rejected 1008 "Exactly 6 camera IDs required" ∧
    (∀ (p : List Char) (ct : String), ∃ reason,
        proxyConnection (some p) ct = ProxyOutcome.rejected 1008 reason) := by
  refine ⟨by decide, by decide, fun p ct => ?_⟩
  exact ⟨"Exactly 6 camera IDs required",
    by simp [proxyConnection, jsStrictNeqNat, proxyMaxCameras]⟩

/-- C8: on the mode-switch control message (the code tag is
`switch_to_memory_optimized`; the spec names it
`switch_to_degraded_mode`) received on an initialized (streaming)
session, the current encoder process is killed and a sequential rotation
starts: the sources are split into subgroups of `maxConcurrentCameras = 3`
(for the 6-camera session: `[[1,2,3],[4,5,6]]`), each group dwells
`groupSwitchDelayMs = 15000` ms, and `k` dwell ticks later the active
subgroup is group `k mod (number of groups)` — the rotation loops back
to the first subgroup indefinitely. -/
theorem c8_degraded_mode :
    (∀ (s : ConnState) (p : Nat), s.isInitialized = true →
        s.transcoder = some (Transcoder.plain p) → s.alive = [p] → p < s.nextPid →
        (connStep s (ConnEvent.msg ClientMsg.switchMemOpt)).alive = [s.nextPid] ∧
        p ∉ (connStep s (ConnEvent.msg ClientMsg.switchMemOpt)).alive ∧
        (connStep s (ConnEvent.msg ClientMsg.switchMemOpt)).transcoder =
          some (Transcoder.seq
            { groups := cameraGroups s.cameraIds,
              currentGroupIndex := 0, currentPid := some s.nextPid })) ∧
    cameraGroups [1, 2, 3, 4, 5, 6] = [[1, 2, 3], [4, 5, 6]] ∧
    groupSwitchDelayMs = 15000 ∧
    (∀ (k : Nat) (s : ConnState) (ctl : SeqCtl) (n m : Nat),
        s.transcoder = some (Transcoder.seq ctl) → ctl.groups.length = n →
        ctl.currentGroupIndex = m → m < n →
        ∃ ctl', (connRun s (List.replicate k ConnEvent.dwellTick)).transcoder =
            some (Transcoder.seq ctl') ∧ ctl'.groups = ctl.groups ∧
            ctl'.currentGroupIndex = (m + k) % n) := by
  refine ⟨?_, by decide, rfl, dwell_rotation⟩
  intro s p hinit htr halive hp
  have hrun : connStep s (ConnEvent.msg ClientMsg.switchMemOpt) =
      spawnSequential (killCurrent { s with memoryErrorDetected := true }) := by
    unfold connStep handleMsgOut
    rw [hinit]
    rfl
  have hkill : killCurrent { s with memoryErrorDetected := true } =
      { s with memoryErrorDetected := true, alive := [] } := by
    unfold killCurrent
    simp only [htr, halive, List.erase_cons_head]
  rw [hrun, hkill]
  unfold spawnSequential
  refine ⟨rfl, ?_, rfl⟩
  simp only [List.nil_append, List.mem_singleton]
  omega

/-- Witness for C8: a session auto-started at 100 ms receives the
mode-switch message (old encoder pid 1 replaced by pid 2, rotation over
`[[1,2,3],[4,5,6]]` installed), then three 15 s dwell ticks land on
group index `3 mod 2 = 1`. -/
theorem c8_degraded_mode_witness :
    ((connStep (connRun (initConn [1, 2, 3, 4, 5, 6] false) [ConnEvent.timeout100])
        (ConnEvent.msg ClientMsg.switchMemOpt)).alive = [2]) ∧
    (∃ ctl', (connRun (connStep (connRun (initConn [1, 2, 3, 4, 5, 6] false)
          [ConnEvent.timeout100]) (ConnEvent.msg ClientMsg.switchMemOpt))
          (List.replicate 3 ConnEvent.dwellTick)).transcoder =
        some (Transcoder.seq ctl') ∧ ctl'.groups = cameraGroups [1, 2, 3, 4, 5, 6] ∧
        ctl'.currentGroupIndex = (0 + 3) % 2) := by
  constructor
  · exact (c8_degraded_mode.1 _ 1 (by decide) (by decide) (by decide) (by decide)).1
  · exact c8_degraded_mode.2.2.2 3 _
      { groups := cameraGroups [1, 2, 3, 4, 5, 6], currentGroupIndex := 0,
        currentPid := some 2 } 2 0 (by decide) (by decide) rfl (by decide)

/-- C9, counterexample: the claim says every `{type:"ping",timestamp}`
control message is answered with `{type:"pong",timestamp}`. The server's
message handler has no `ping` branch and contains no `ws.send` at all
(heartbeat uses protocol-level `ws.ping()` / the `pong` event instead),
so a ping with timestamp 123 produces no reply. -/
theorem c9_counterexample :
    (handleMsgOut (initConn [1, 2, 3, 4, 5, 6] false) (ClientMsg.ping 123)).2 = [] ∧
    OutMsg.pong 123 ∉ (handleMsgOut (initConn [1, 2, 3, 4, 5, 6] false)
        (ClientMsg.ping 123)).2 := by
  decide

/-- C9 amended: an application-level ping control message matches no
branch of the server's message handler: it is ignored — no state change
and no reply of any kind (liveness is probed instead by the server's
protocol-level ping every 60 s). -/
theorem c9_amended : ∀ (s : ConnState) (ts : Nat),
    handleMsgOut s (ClientMsg.ping ts) = (s, []) :=
  fun s ts => rfl

/-- C10: for every non-empty source list, the generated filter graph ends
in an xstack stage declaring `inputs=n` (the actual source count) but
always the same fixed 6-position tile layout string, independent of `n`
— in particular for the 3-source degraded-mode subgroups (see the
witness). -/
theorem c10_xstack_layout (ids : List Nat) (hne : ids ≠ []) :
    ∃ p q : String,
      xstackFilter ids = p ++ ":layout=" ++ tileLayout ++ "[v]" ∧
      p = q ++ "xstack=inputs=" ++ toString ids.length :=
  ⟨scaleFilters ids ++ ";" ++ scaledInputs ids ++ "xstack=inputs=" ++ toString ids.length,
   scaleFilters ids ++ ";" ++ scaledInputs ids, rfl, rfl⟩

/-- Witness for C10 at the degraded-mode subgroup `[1,2,3]` (a member of
the 6-camera session's rotation groups). -/
theorem c10_xstack_layout_witness :
    (∃ p q : String,
      xstackFilter [1, 2, 3] = p ++ ":layout=" ++ tileLayout ++ "[v]" ∧
      p = q ++ "xstack=inputs=" ++ toString ([1, 2, 3] : List Nat).length) ∧
    [1, 2, 3] ∈ cameraGroups [1, 2, 3, 4, 5, 6] :=
  ⟨c10_xstack_layout [1, 2, 3] (by decide), by decide⟩

end CamTrack
